import Mathlib

/-!
Verification development for the asana_extensions repository.

This file gives a shallow embedding, in Lean 4, of the parts of the program
that the checked properties are about:

* the timeframe parser (`rules/rule_meta.py`: `Rule.parse_timeframe`,
  `Rule.parse_timedelta_arg`) together with the specific regex-template
  matching semantics it relies on;
* the relative time delta values produced by `dateutil.relativedelta`
  (constructor normalization, as far as the six keyword arguments used by
  the program are concerned);
* dates, times-of-day and timezone-aware datetimes with the arithmetic and
  comparisons used by the date/time filter engine (`asana/utils.py`);
* the section resolution utility (`get_net_include_section_gids`);
* the task filter engine (`_filter_tasks_by_datetime`, `get_filtered_tasks`);
* the move-tasks rule (`rules/move_tasks_rule.py`: constructor invariants and
  the effects of `execute`), the validity cache of the abstract rule
  (`rules/rule_meta.py`: `Rule.is_valid`), and the rule runner
  (`rules/rules.py`: `execute_rules`).

External effects (the asana client layer, the wall clock) are modelled by an
explicit environment record; mutating calls are modelled as values collected
in an effect trace.  Python `None` is modelled with `Option`; Python machine
independent `int` with `Int`; raised exceptions with `Except`.
-/

/-! ## Timeframe indicator matching

`Rule.parse_timeframe` compiles, for each timeframe indicator, the regex
template

  `(^|(?<=\s|[a-z]|[A-Z]|,))(?P<num>(\+|-)?\d+)\s?INDICATOR(?=\s|-|\d|,|\+|$)`

with `re.MULTILINE` (and `re.IGNORECASE` when the indicator is marked case
insensitive) and collects all non-overlapping matches via `finditer`.  Every
indicator the program uses is either a literal word with an optional trailing
`s` (for instance `minutes?`) or a single literal letter (for instance `m`),
so indicators are embedded as a literal base string plus an optional-`s` flag.
The matcher below implements exactly this pattern shape: left-to-right scan,
at each position a boundary (lookbehind) test, an optional sign, a maximal
nonempty digit run, an optional single whitespace, the indicator (greedy on
the optional `s`, with backtracking), and the lookahead test; a successful
match consumes its span and scanning resumes after it. -/

/-- A timeframe indicator as used by `parse_timedelta_arg`: a literal base
(e.g. `minute` or `m`), whether the regex had a trailing optional `s`
(`minutes?`), and whether matching is case sensitive. -/
structure TFIndicator where
  base : String
  optS : Bool
  caseSensitive : Bool
deriving DecidableEq, Repr

/-- Python regex `\s` over the ASCII range (space, tab, newline, carriage
return, vertical tab, form feed); the program only feeds ASCII config text. -/
def isPySpace (c : Char) : Bool :=
  c == ' ' || c == '\t' || c == '\n' || c == '\r' ||
    c == Char.ofNat 11 || c == Char.ofNat 12

/-- The lookbehind `(?<=\s|[a-z]|[A-Z]|,)` together with the `^` alternative
under `re.MULTILINE` (`^` also matches right after a newline, but a newline is
already whitespace).  `prev = none` is the start of the string. -/
def boundaryOk (prev : Option Char) : Bool :=
  match prev with
  | none => true
  | some c => isPySpace c || c.isAlpha || c == ','

/-- The lookahead `(?=\s|-|\d|,|\+|$)`; under `re.MULTILINE` the `$` matches
at end of string or before a newline (a newline is whitespace anyway). -/
def lookaheadOk (rest : List Char) : Bool :=
  match rest with
  | [] => true
  | c :: _ => isPySpace c || c == '-' || c.isDigit || c == ',' || c == '+'

/-- Case-folding for `re.IGNORECASE` matching of ASCII letters. -/
def charMatches (caseSensitive : Bool) (p c : Char) : Bool :=
  if caseSensitive then p == c else p.toLower == c.toLower

/-- Match a literal character sequence at the head of `s`, returning the
remainder on success. -/
def matchLit (caseSensitive : Bool) : List Char → List Char → Option (List Char)
  | [], s => some s
  | _ :: _, [] => none
  | p :: ps, c :: cs =>
      if charMatches caseSensitive p c then matchLit caseSensitive ps cs else none

/-- Try the indicator at `rest` (greedy on the optional `s`, so the
`s`-extended literal is tried first), requiring the lookahead to hold after
it; returns the number of characters the indicator consumed. -/
def tryIndicator (tf : TFIndicator) (rest : List Char) : Option Nat :=
  let alts :=
    if tf.optS then [tf.base.data ++ ['s'], tf.base.data] else [tf.base.data]
  alts.foldl (fun acc alt =>
    match acc with
    | some k => some k
    | none =>
        match matchLit tf.caseSensitive alt rest with
        | some rest2 => if lookaheadOk rest2 then some alt.length else none
        | none => none) none

/-- Value of a digit run as read by Python `int`. -/
def digitsVal (ds : List Char) : Int :=
  Int.ofNat (ds.foldl (fun n c => 10 * n + (c.toNat - '0'.toNat)) 0)

/-- Try a full match of the pattern at the current position of `s`, whose
preceding character is `prev`.  Returns the signed number and the total
number of characters consumed by the match.  Mirrors the regex:
optional sign, maximal nonempty digit run (nothing later in the pattern can
consume a digit, so digit backtracking never fires), optional one whitespace
(greedy, with backtracking to the empty alternative), indicator, lookahead. -/
def tryMatchAt (tf : TFIndicator) (prev : Option Char) (s : List Char) :
    Option (Int × Nat) :=
  if !boundaryOk prev then none
  else
    let (sgn, signLen, s1) :=
      match s with
      | '+' :: r => ((1 : Int), 1, r)
      | '-' :: r => ((-1 : Int), 1, r)
      | _ => ((1 : Int), 0, s)
    let ds := s1.takeWhile Char.isDigit
    let s2 := s1.dropWhile Char.isDigit
    if ds.isEmpty then none
    else
      let n := sgn * digitsVal ds
      let afterNum := signLen + ds.length
      let noWs :=
        match tryIndicator tf s2 with
        | some k => some (n, afterNum + k)
        | none => none
      match s2 with
      | c :: r2 =>
          if isPySpace c then
            match tryIndicator tf r2 with
            | some k => some (n, afterNum + 1 + k)
            | none => noWs
          else noWs
      | [] => noWs

/-- Left-to-right non-overlapping scan (the semantics of `finditer`): try a
match at every position; on success record the number and resume right after
the consumed span.  `fuel` bounds recursion depth; every step advances at
least one character, so `s.length + 1` fuel is always enough. -/
def scanAux (tf : TFIndicator) : Nat → Option Char → List Char → List Int
  | 0, _, _ => []
  | _ + 1, _, [] => []
  | fuel + 1, prev, c :: rest =>
      match tryMatchAt tf prev (c :: rest) with
      | some (n, k) =>
          n :: scanAux tf fuel (((c :: rest).take k).getLast?) ((c :: rest).drop k)
      | none => scanAux tf fuel (some c) rest

/-- All matches of one indicator's compiled pattern in `tf_str`. -/
def findMatches (tf : TFIndicator) (tf_str : String) : List Int :=
  scanAux tf (tf_str.length + 1) none tf_str.data

/-- All matches over all indicator variants, in the order the source extends
its `matches` list (one `finditer` pass per compiled pattern). -/
def findAllMatches (tf_str : String) (timeframes : List TFIndicator) : List Int :=
  (timeframes.map (fun tf => findMatches tf tf_str)).flatten

/-- Typed stand-ins for the exceptions the timeframe parser can raise
(`general/exceptions.py`: `TimeframeArgDupeError`). -/
inductive TFParseError where
  | timeframeArgDupe
deriving DecidableEq, Repr

/-- `rule_meta.Rule.parse_timeframe`: collect all matches over all indicator
variants; zero matches yield 0, more than one raises `TimeframeArgDupeError`,
exactly one yields its signed integer. -/
def parse_timeframe (tf_str : String) (timeframes : List TFIndicator) :
    Except TFParseError Int :=
  let ms := findAllMatches tf_str timeframes
  if ms.length = 0 then .ok 0
  else if ms.length > 1 then .error .timeframeArgDupe
  else .ok (ms.headD 0)

/-! ## Relative time deltas

`dateutil.relativedelta` as used here: the program only ever passes the
relative keyword arguments `minutes`, `hours`, `days`, `weeks`, `months`,
`years` (so `seconds`/`microseconds` are 0 and the absolute fields are
unset).  The constructor folds weeks into days (`days += weeks * 7`) and then
normalizes (`_fix`): sign-magnitude carries microseconds→seconds→minutes→
hours→days and months→years. -/

structure RelDelta where
  years : Int
  months : Int
  days : Int
  hours : Int
  minutes : Int
  seconds : Int
  microseconds : Int
deriving DecidableEq, Repr

/-- One `_fix` carry step: if `|x|` exceeds `limit`, split `|x|` by `m`
keeping the sign (`divmod(x * sign, m)` in the source), returning the reduced
value and the carry to add to the next coarser field. -/
def carryFix (x : Int) (m : Nat) (limit : Nat) : Int × Int :=
  if x.natAbs > limit then
    let sgn : Int := if x < 0 then -1 else 1
    (Int.ofNat (x.natAbs % m) * sgn, Int.ofNat (x.natAbs / m) * sgn)
  else (x, 0)

/-- The `relativedelta(minutes=…, hours=…, days=…, weeks=…, months=…,
years=…)` constructor (relative fields only), including `_fix`. -/
def RelDelta.make (years months days weeks hours minutes : Int) : RelDelta :=
  let days := days + weeks * 7
  let (microseconds, cs) := carryFix 0 1000000 999999
  let seconds := 0 + cs
  let (seconds, cm) := carryFix seconds 60 59
  let minutes := minutes + cm
  let (minutes, ch) := carryFix minutes 60 59
  let hours := hours + ch
  let (hours, cd) := carryFix hours 24 23
  let days := days + cd
  let (months, cy) := carryFix months 12 11
  let years := years + cy
  ⟨years, months, days, hours, minutes, seconds, microseconds⟩

/-- `general/utils.py` `is_date_only` on a `relativedelta`: no hour, minute,
second or microsecond component (Python truthiness of the integer fields). -/
def is_date_only (r : RelDelta) : Bool :=
  r.hours == 0 && r.minutes == 0 && r.seconds == 0 && r.microseconds == 0

/-- `{'minutes?': False, 'm': True}` (the bool is case sensitivity). -/
def tf_minutes_ind : List TFIndicator :=
  [⟨"minute", true, false⟩, ⟨"m", false, true⟩]

/-- `{'hours?': False, 'h': True}` -/
def tf_hours_ind : List TFIndicator :=
  [⟨"hour", true, false⟩, ⟨"h", false, true⟩]

/-- `{'days?': False, 'd': True}` -/
def tf_days_ind : List TFIndicator :=
  [⟨"day", true, false⟩, ⟨"d", false, true⟩]

/-- `{'weeks?': False, 'w': True}` -/
def tf_weeks_ind : List TFIndicator :=
  [⟨"week", true, false⟩, ⟨"w", false, true⟩]

/-- `{'months?': False, 'M': True}` -/
def tf_months_ind : List TFIndicator :=
  [⟨"month", true, false⟩, ⟨"M", false, true⟩]

/-- `{'years?': False, 'y': True}` -/
def tf_years_ind : List TFIndicator :=
  [⟨"year", true, false⟩, ⟨"y", false, true⟩]

/-- `rule_meta.Rule.parse_timedelta_arg`: `None`/empty input yields `None`;
otherwise the timeframe parser runs once per unit and the six results are
composed into one `relativedelta`. -/
def parse_timedelta_arg (arg_str : Option String) :
    Except TFParseError (Option RelDelta) :=
  match arg_str with
  | none => .ok none
  | some s =>
      if s = "" then .ok none
      else do
        let m ← parse_timeframe s tf_minutes_ind
        let h ← parse_timeframe s tf_hours_ind
        let d ← parse_timeframe s tf_days_ind
        let w ← parse_timeframe s tf_weeks_ind
        let mo ← parse_timeframe s tf_months_ind
        let y ← parse_timeframe s tf_years_ind
        .ok (some (RelDelta.make y mo d w h m))

/-! ## Dates, times of day, aware datetimes

The filter engine manipulates `datetime.date` values (task `due_on`),
timezone-aware `datetime.datetime` values (task `due_at`, the base datetime,
synthesized assumed-time datetimes) and naive `datetime.time` values (the
assumed times, which the rule loader forbids from carrying a timezone).
A timezone is modelled by its fixed UTC offset in minutes.  Every datetime
the filter engine compares is aware, so the embedded datetime always carries
an offset; Python's aware comparison semantics (compare the absolute
instants) is implemented through a microsecond timeline. -/

structure Date where
  year : Int
  month : Int
  day : Int
deriving DecidableEq, Repr

structure TimeOfDay where
  hour : Int
  minute : Int
  second : Int
  microsecond : Int
deriving DecidableEq, Repr

/-- An aware `datetime.datetime`: calendar date, wall-clock time of day and
the fixed UTC offset of its `tzinfo`, in minutes. -/
structure DateTime where
  date : Date
  time : TimeOfDay
  offset_min : Int
deriving DecidableEq, Repr

def isLeapYear (y : Int) : Bool :=
  (y % 4 == 0 && y % 100 != 0) || y % 400 == 0

def daysInMonth (y m : Int) : Int :=
  if m = 2 then (if isLeapYear y then 29 else 28)
  else if m = 4 || m = 6 || m = 9 || m = 11 then 30
  else 31

/-- Days since 1970-01-01 of a civil date (standard civil-calendar
conversion, floor divisions). -/
def Date.toRataDie (d : Date) : Int :=
  let y := if d.month ≤ 2 then d.year - 1 else d.year
  let era := Int.fdiv y 400
  let yoe := y - era * 400
  let mp := if d.month > 2 then d.month - 3 else d.month + 9
  let doy := Int.fdiv (153 * mp + 2) 5 + d.day - 1
  let doe := yoe * 365 + Int.fdiv yoe 4 - Int.fdiv yoe 100 + doy
  era * 146097 + doe - 719468

/-- Civil date from days since 1970-01-01 (inverse conversion). -/
def Date.fromRataDie (z : Int) : Date :=
  let z := z + 719468
  let era := Int.fdiv z 146097
  let doe := z - era * 146097
  let yoe := Int.fdiv
      (doe - Int.fdiv doe 1460 + Int.fdiv doe 36524 - Int.fdiv doe 146096) 365
  let y := yoe + era * 400
  let doy := doe - (365 * yoe + Int.fdiv yoe 4 - Int.fdiv yoe 100)
  let mp := Int.fdiv (5 * doy + 2) 153
  let d := doy - Int.fdiv (153 * mp + 2) 5 + 1
  let m := if mp < 10 then mp + 3 else mp - 9
  ⟨if m ≤ 2 then y + 1 else y, m, d⟩

/-- `datetime.date` ordering: field-wise lexicographic comparison. -/
def Date.leb (a b : Date) : Bool :=
  decide (a.year < b.year ∨ (a.year = b.year ∧
    (a.month < b.month ∨ (a.month = b.month ∧ a.day ≤ b.day))))

def usPerDay : Int := 86400000000

def TimeOfDay.toUs (t : TimeOfDay) : Int :=
  ((t.hour * 60 + t.minute) * 60 + t.second) * 1000000 + t.microsecond

/-- Wall-clock microseconds since the epoch (timezone ignored). -/
def DateTime.wallUs (dtv : DateTime) : Int :=
  dtv.date.toRataDie * usPerDay + dtv.time.toUs

/-- Absolute instant in microseconds since the epoch UTC; aware Python
datetimes compare by this value. -/
def DateTime.instantUs (dtv : DateTime) : Int :=
  dtv.wallUs - dtv.offset_min * 60000000

/-- Rebuild a datetime from wall-clock microseconds and an offset. -/
def DateTime.ofWallUs (w : Int) (off : Int) : DateTime :=
  let d := Int.fdiv w usPerDay
  let r := w - d * usPerDay
  let us := Int.emod r 1000000
  let totSec := Int.fdiv r 1000000
  let s := Int.emod totSec 60
  let totMin := Int.fdiv totSec 60
  ⟨Date.fromRataDie d, ⟨Int.fdiv totMin 60, Int.emod totMin 60, s, us⟩, off⟩

/-- `datetime.astimezone(tz)`: same instant, wall clock rewritten for the
target fixed offset. -/
def DateTime.astimezone (dtv : DateTime) (off : Int) : DateTime :=
  DateTime.ofWallUs (dtv.instantUs + off * 60000000) off

/-- `datetime.combine(date, time, tzinfo)` for a naive time of day and a
fixed-offset timezone. -/
def DateTime.combine (d : Date) (t : TimeOfDay) (off : Int) : DateTime :=
  ⟨d, t, off⟩

/-- Total microseconds of the `timedelta(days=…, hours=…, minutes=…,
seconds=…, microseconds=…)` part of a relativedelta. -/
def RelDelta.subMonthUs (r : RelDelta) : Int :=
  r.days * usPerDay + r.hours * 3600000000 + r.minutes * 60000000 +
    r.seconds * 1000000 + r.microseconds

/-- The years/months part of `relativedelta.__add__`: shift the year, add the
(already `_fix`-normalized, so single-step) month adjustment, then clamp the
day to the target month's length. -/
def RelDelta.shiftMonths (r : RelDelta) (d : Date) : Date :=
  let year := d.year + r.years
  let (year, month) :=
    if r.months ≠ 0 then
      let m := d.month + r.months
      if m > 12 then (year + 1, m - 12)
      else if m < 1 then (year - 1, m + 12)
      else (year, m)
    else (year, d.month)
  ⟨year, month, min (daysInMonth year month) d.day⟩

/-- `date + relativedelta`: shift years/months with day clamping, then add
the timedelta part; `date + timedelta` only adds the timedelta's normalized
`days` component, which is the floor of its total span in days. -/
def RelDelta.addToDate (r : RelDelta) (d : Date) : Date :=
  let base := r.shiftMonths d
  Date.fromRataDie (base.toRataDie + Int.fdiv r.subMonthUs usPerDay)

/-- `datetime + relativedelta`: shift years/months with day clamping, keep the
time of day, then add the timedelta part on the wall clock (Python datetime
arithmetic is wall-clock arithmetic; the tzinfo is preserved). -/
def RelDelta.addToDateTime (r : RelDelta) (dtv : DateTime) : DateTime :=
  let base := r.shiftMonths dtv.date
  DateTime.ofWallUs (base.toRataDie * usPerDay + dtv.time.toUs + r.subMonthUs)
    dtv.offset_min

/-- Aware `datetime` ordering: comparison of absolute instants. -/
def DateTime.leb (a b : DateTime) : Bool :=
  decide (a.instantUs ≤ b.instantUs)

/-- The comparison operator handed to `_filter_tasks_by_datetime`
(`operator.ge` for the min bound, `operator.le` for the max bound). -/
inductive CmpOp where
  | ge
  | le
deriving DecidableEq, Repr

/-- `task_due [op] threshold` on `datetime.date` values. -/
def CmpOp.onDate : CmpOp → Date → Date → Bool
  | .ge, a, b => Date.leb b a
  | .le, a, b => Date.leb a b

/-- `task_due [op] threshold` on aware `datetime.datetime` values. -/
def CmpOp.onDateTime : CmpOp → DateTime → DateTime → Bool
  | .ge, a, b => DateTime.leb b a
  | .le, a, b => DateTime.leb a b

/-! ## Task records and the date/time filter engine -/

/-- A task record as the filter engine reads it.  `due_on` is the date-only
due field (`none` is the API's null).  `due_at` models the precise due
datetime; the source guards it with `'due_at' in task and task['due_at'] is
not None`, so a single `none` covers both an absent key and a null value.
The date/datetime strings of the API are modelled already parsed (the source
parses them with `date.fromisoformat` and `dateutil.parser.isoparse`; the
API only hands it values those parsers accept, `due_at` always carrying a
timezone). -/
structure TaskRec where
  gid : Nat
  name : String
  due_on : Option Date
  due_at : Option DateTime
  completed : Bool
deriving DecidableEq, Repr

/-- `asana/utils.py` `_filter_tasks_by_datetime` (the leading underscore is
dropped for Lean).  `none` for the relative window is the no-op filter.  A
date-only window compares `due_on` against `dt_base.date() + window` at date
granularity; otherwise the comparison is at datetime granularity against
`dt_base + window`, preferring `due_at`, falling back to `due_on` combined
with the assumed time in `dt_base`'s timezone, and skipping the task when no
assumed time is provided.  A task whose `due_on` is null is always skipped. -/
def filter_tasks_by_datetime (tasks : List TaskRec) (dt_base : DateTime)
    (rel_dt_until_due : Option RelDelta) (op : CmpOp)
    (time_due_assumed : Option TimeOfDay) : List TaskRec :=
  match rel_dt_until_due with
  | none => tasks
  | some rel =>
      if is_date_only rel then
        let due_threshold := rel.addToDate dt_base.date
        tasks.filter fun task =>
          match task.due_on with
          | none => false
          | some due_task => op.onDate due_task due_threshold
      else
        let due_threshold := rel.addToDateTime dt_base
        tasks.filter fun task =>
          match task.due_on with
          | none => false
          | some due_on =>
              match task.due_at with
              | some due_task => op.onDateTime due_task due_threshold
              | none =>
                  match time_due_assumed with
                  | some assumed =>
                      op.onDateTime
                        (DateTime.combine due_on assumed dt_base.offset_min)
                        due_threshold
                  | none => false

/-- The environment of external collaborators: the asana client layer
(`asana/client.py`, a black box per the spec) and the wall clock.
`tasks_in_section g` plays `aclient.get_tasks({'section': g}, fields)` (the
fields argument only projects the returned records, so the environment holds
the full records and the field list requested by the code is recorded
separately); `section_gids` plays `get_section_gids_in_project_or_utl`;
`section_gid_from_name c n` plays `get_section_gid_from_name(c, n)` for the
name lookups that succeed (a lookup failure propagates out of the utility
untouched, which is outside these claims); `now` plays
`datetime.now()` in the machine's local timezone. -/
structure ApiEnv where
  tasks_in_section : Int → List TaskRec
  section_gids : Int → List Int
  section_gid_from_name : Int → String → Int
  now : DateTime

/-- The field set `get_filtered_tasks` requests from the API. -/
def get_filtered_tasks_fields : List String :=
  ["due_at", "due_on", "name", "resource_type"]

def err_min_max_xor : String :=
  "Must provide min/max until due or specify no due date but not both"

/-- `asana/utils.py` `get_filtered_tasks`: asserts that exactly one of
`match_no_due_date` and a min/max window is given; fetches the section's
tasks; returns the due-dateless tasks when `match_no_due_date`, and otherwise
applies the relative-window filter twice (ge with the min window, le with the
max window) on `now` rebased to `use_tzinfo` (`none` keeps the local zone
`now` already carries). -/
def get_filtered_tasks (env : ApiEnv) (section_gid : Int)
    (match_no_due_date : Bool)
    (min_time_until_due max_time_until_due : Option RelDelta)
    (min_time_due_assumed max_time_due_assumed : Option TimeOfDay)
    (use_tzinfo : Option Int) : Except String (List TaskRec) :=
  if !(Bool.xor match_no_due_date
        (min_time_until_due.isSome || max_time_until_due.isSome)) then
    .error err_min_max_xor
  else
    let sect_tasks := env.tasks_in_section section_gid
    if match_no_due_date then
      .ok (sect_tasks.filter fun t => t.due_on == none)
    else
      let now_with_tz := env.now.astimezone (use_tzinfo.getD env.now.offset_min)
      let filt_tasks := filter_tasks_by_datetime sect_tasks now_with_tz
          min_time_until_due .ge min_time_due_assumed
      let filt_tasks := filter_tasks_by_datetime filt_tasks now_with_tz
          max_time_until_due .le max_time_due_assumed
      .ok filt_tasks

/-- Modelled from the spec: `filter_tasks_by_completed(tasks,
is_completed_or_none)`, the trivial equality filter on the `completed` field
where `None` passes all tasks through.  The repository's unit tests exercise
`_filter_tasks_by_completed` and an `is_completed` argument of
`get_filtered_tasks`, but that code is absent from the source tree under
`src/`; this definition follows the spec's words for comparison against the
source-embedded `get_filtered_tasks`. -/
def filter_tasks_by_completed (tasks : List TaskRec) (is_completed : Option Bool) :
    List TaskRec :=
  match is_completed with
  | none => tasks
  | some b => tasks.filter fun t => t.completed == b

/-! ## Section resolution utility -/

/-- The errors `get_net_include_section_gids` can raise
(`asana/utils.py`: `DataMissingError`, `DataConflictError`). -/
inductive SectionResolutionError where
  | dataMissing
  | dataConflict
deriving DecidableEq, Repr

/-- Outcome of `get_net_include_section_gids`: the net included gid set plus
whether the non-fatal missing-excludes warning was logged. -/
structure NetIncludeResult where
  warned_missing_excludes : Bool
  gids : Finset Int
deriving DecidableEq

/-- The authoritative section set of the container:
`set(aclient.get_section_gids_in_project_or_utl(proj_or_utl_gid))`. -/
def authoritative_section_gids (env : ApiEnv) (proj_or_utl_gid : Int) :
    Finset Int :=
  (env.section_gids proj_or_utl_gid).toFinset

/-- Gids resolved from a list of section names via the client lookup. -/
def resolved_section_gids (env : ApiEnv) (proj_or_utl_gid : Int)
    (names : List String) : Finset Int :=
  (names.map (env.section_gid_from_name proj_or_utl_gid)).toFinset

/-- `include_gids` of the source: resolved include names united with the
explicit include gids. -/
def include_gids_total (env : ApiEnv) (proj_or_utl_gid : Int)
    (include_sect_names : List String) (include_sect_gids : List Int) :
    Finset Int :=
  resolved_section_gids env proj_or_utl_gid include_sect_names ∪
    include_sect_gids.toFinset

/-- `exclude_gids` of the source: resolved exclude names united with the
explicit exclude gids. -/
def exclude_gids_total (env : ApiEnv) (proj_or_utl_gid : Int)
    (exclude_sect_names : List String) (exclude_sect_gids : List Int) :
    Finset Int :=
  resolved_section_gids env proj_or_utl_gid exclude_sect_names ∪
    exclude_sect_gids.toFinset

/-- `asana/utils.py` `get_net_include_section_gids`: raises `DataMissingError`
when an explicitly included gid is absent from the authoritative set, logs a
warning (non-fatal) when an excluded gid is absent, raises
`DataConflictError` when a gid is both included and excluded, and otherwise
returns the include set when explicit includes exist or `default_to_include`
is false, else the authoritative set minus the excludes. -/
def get_net_include_section_gids (env : ApiEnv) (proj_or_utl_gid : Int)
    (include_sect_names : List String) (include_sect_gids : List Int)
    (exclude_sect_names : List String) (exclude_sect_gids : List Int)
    (default_to_include : Bool) :
    Except SectionResolutionError NetIncludeResult :=
  let project_section_gids := authoritative_section_gids env proj_or_utl_gid
  let include_gids :=
    include_gids_total env proj_or_utl_gid include_sect_names include_sect_gids
  let exclude_gids :=
    exclude_gids_total env proj_or_utl_gid exclude_sect_names exclude_sect_gids
  if (include_gids \ project_section_gids).Nonempty then
    .error .dataMissing
  else
    let warned := decide (exclude_gids \ project_section_gids).Nonempty
    if (include_gids ∩ exclude_gids).Nonempty then
      .error .dataConflict
    else if ¬default_to_include ∨ (default_to_include ∧ include_gids.Nonempty)
    then .ok ⟨warned, include_gids⟩
    else .ok ⟨warned, project_section_gids \ exclude_gids⟩

/-! ## Move-tasks rule -/

/-- The rule parameter mapping a `MoveTasksRule` is constructed from
(`load_specific_from_conf` fills every key; `getboolean(..., fallback=None)`
makes `is_my_tasks_list` a tri-state, while `match_no_due_date` defaults to
`False` and is a plain bool). -/
structure MoveTasksRuleParams where
  project_name : Option String
  project_gid : Option Int
  is_my_tasks_list : Option Bool
  user_task_list_gid : Option Int
  workspace_name : Option String
  workspace_gid : Option Int
  match_no_due_date : Bool
  min_time_until_due_str : Option String
  min_time_until_due : Option RelDelta
  max_time_until_due_str : Option String
  max_time_until_due : Option RelDelta
  min_due_assumed_time : Option TimeOfDay
  max_due_assumed_time : Option TimeOfDay
  src_sections_include_names : List String
  src_sections_include_gids : List Int
  src_sections_exclude_names : List String
  src_sections_exclude_gids : List Int
  dst_section_name : Option String
  dst_section_gid : Option Int
deriving DecidableEq, Repr

def err_utl_both : String :=
  "Cannot specify 'for my tasks list' and 'user task list gid' together."

def err_proj_xor_utl : String :=
  "Must specify to use a project or user task list, but not both."

def err_workspace : String :=
  "Must specify workspace."

def err_time_parse : String :=
  "Failed to parse min/max time until due -- check format."

def err_time_xor_no_due : String :=
  "Must specify either min/max time until due or match no due date (but not both)."

/-- `is_project_given` of the constructor. -/
def is_project_given (p : MoveTasksRuleParams) : Bool :=
  p.project_name.isSome || p.project_gid.isSome

/-- `is_user_task_list_given` of the constructor (Python truthiness of the
tri-state `is_my_tasks_list`: only `True` is truthy). -/
def is_user_task_list_given (p : MoveTasksRuleParams) : Bool :=
  (p.is_my_tasks_list == some true) || p.user_task_list_gid.isSome

/-- `is_time_given` of the constructor (on the raw string parameters). -/
def is_time_given (p : MoveTasksRuleParams) : Bool :=
  p.min_time_until_due_str.isSome || p.max_time_until_due_str.isSome

/-- `is_time_parsed` of the constructor (on the parsed parameters). -/
def is_time_parsed (p : MoveTasksRuleParams) : Bool :=
  p.min_time_until_due.isSome || p.max_time_until_due.isSome

/-- The assertion chain of `MoveTasksRule.__init__`, in source order; an
`AssertionError` is modelled as `Except.error` with the assertion's message. -/
def MoveTasksRule.init_check (p : MoveTasksRuleParams) : Except String Unit :=
  if !((p.is_my_tasks_list == some false) || (p.user_task_list_gid == none))
  then .error err_utl_both
  else if !(Bool.xor (is_project_given p) (is_user_task_list_given p))
  then .error err_proj_xor_utl
  else if !(p.workspace_name.isSome || p.workspace_gid.isSome)
  then .error err_workspace
  else if !(is_time_given p == is_time_parsed p)
  then .error err_time_parse
  else if !(Bool.xor (is_time_given p) p.match_no_due_date)
  then .error err_time_xor_no_due
  else .ok ()

/-- The external effects of one `MoveTasksRule.execute` run: the
`aclient.move_task_to_section(task_gid, dst_section_gid)` mutation calls, in
order, and the task gids named in test-report-only log lines. -/
structure ExecEffects where
  moves : List (Nat × Option Int)
  dry_run_logs : List Nat
deriving DecidableEq, Repr

/-- `move_tasks_rule.MoveTasksRule.execute`: nothing happens unless
`is_valid()` and `is_criteria_met()` (their results are passed in; computing
them is `Rule.is_valid` below); the due-filtered tasks of every net-included
source section are concatenated and processed in reverse order, each task
either logged (when the rule's test-report-only flag or the caller's
override is set) or moved to the destination section. -/
def MoveTasksRule.execute (env : ApiEnv) (p : MoveTasksRuleParams)
    (src_net_include_section_gids : List Int) (valid criteria_met : Bool)
    (test_report_only : Bool) (force_test_report_only : Bool) :
    Except String ExecEffects :=
  if !valid || !criteria_met then .ok ⟨[], []⟩
  else do
    let fetched ← src_net_include_section_gids.mapM fun src_sect_gid =>
      get_filtered_tasks env src_sect_gid p.match_no_due_date
        p.min_time_until_due p.max_time_until_due
        p.min_due_assumed_time p.max_due_assumed_time none
    let tasks_to_move := fetched.flatten
    let eff := tasks_to_move.reverse.foldl
      (fun (e : ExecEffects) task =>
        if test_report_only || force_test_report_only then
          { e with dry_run_logs := e.dry_run_logs ++ [task.gid] }
        else
          { e with moves := e.moves ++ [(task.gid, p.dst_section_gid)] })
      ⟨[], []⟩
    .ok eff

/-! ## Rule validity cache and the rule runner -/

/-- The mutable state `Rule.is_valid` works on: the memoized tri-state
`_is_valid` plus an instrumentation counter of
`_sync_and_validate_with_api()` invocations. -/
structure RuleState where
  is_valid : Option Bool
  sync_calls : Nat
deriving DecidableEq, Repr

/-- `Rule.__init__` leaves `_is_valid = None`. -/
def Rule.initState : RuleState :=
  ⟨none, 0⟩

/-- `rule_meta.Rule.is_valid`: on a `None` cache, run the synchronization
(whose boolean result is `sync_result`) and cache it; otherwise return the
cache untouched. -/
def Rule.is_valid (sync_result : Bool) (st : RuleState) : Bool × RuleState :=
  match st.is_valid with
  | none => (sync_result, ⟨some sync_result, st.sync_calls + 1⟩)
  | some b => (b, st)

/-- State after `n` successive `is_valid()` calls on a fresh rule. -/
def Rule.is_valid_iter (sync_result : Bool) : Nat → RuleState
  | 0 => Rule.initState
  | n + 1 => (Rule.is_valid sync_result (Rule.is_valid_iter sync_result n)).2

/-- A rule as the runner sees it: an identifier and the value its
`execute(force_test_report_only)` returns (per `Rule.execute`'s documented
contract, `True` on full success and `False` on any error; the runner treats
whatever comes back as its per-rule flag). -/
structure RunnerRule where
  id : Nat
  exec_result : Bool → Bool

/-- `rules.execute_rules`: every rule's `execute` is invoked (the first
component traces the rule ids in invocation order) and the returned flag is
folded as `any_errors = rule.execute(force_test_report_only) or any_errors`;
the runner returns `not any_errors`. -/
def execute_rules (rules : List RunnerRule) (force_test_report_only : Bool) :
    List Nat × Bool :=
  let st := rules.foldl
    (fun (st : List Nat × Bool) rule =>
      (st.1 ++ [rule.id], rule.exec_result force_test_report_only || st.2))
    ([], false)
  (st.1, !st.2)

/-! ## Checked properties -/

/-- C1.  The claim says `execute_rules` invokes `execute()` on every rule and
returns `True` iff no rule reported failure.  The invocation part holds (the
trace below contains every rule id, and a middle failure does not stop the
later rules), but the result part fails on the code: `rules.py` folds the
value `execute()` returns as an *error* flag
(`any_errors = rule.execute(force_test_report_only) or any_errors`), while
`Rule.execute`'s documented contract (and the runner's own test,
`tests/unit/rules/test_rules.py::test_execute_rules`) has `execute()` return
`True` on success.  Hence a single fully successful rule — `execute()`
returning `True` — makes the runner return `False`. -/
theorem execute_rules_inverted_success_flag :
    execute_rules [⟨1, fun _ => true⟩] false = ([1], false)
  ∧ execute_rules [⟨1, fun _ => true⟩, ⟨2, fun _ => false⟩, ⟨3, fun _ => true⟩]
      false = ([1, 2, 3], false) :=
  ⟨rfl, rfl⟩

/-- A completed task due on 2021-01-01, date-only. -/
def c2_task : TaskRec :=
  ⟨101, toString 101, some ⟨2021, 1, 1⟩, none, true⟩

/-- Base datetime 2021-01-01 21:00 at UTC-0500, used as "now". -/
def base_2021_est : DateTime :=
  ⟨⟨2021, 1, 1⟩, ⟨21, 0, 0, 0⟩, -300⟩

/-- Environment for the completed-filter check: one section containing only
the completed task. -/
def c2_env : ApiEnv :=
  ⟨fun _ => [c2_task], fun _ => [], fun _ _ => 0, base_2021_est⟩

/-- The zero relative delta (a date-only window meaning "today"). -/
def zeroDelta : RelDelta :=
  RelDelta.make 0 0 0 0 0 0

/-- C2.  The claim says `get_filtered_tasks` requests the field set
{due_at, due_on, name, resource_type, completed} and applies a
completed-status equality filter after the two datetime filters.  On the
source, the requested field set has no `completed` member and no completed
filter exists at all (`_filter_tasks_by_completed` and the `is_completed`
parameter that the repository's own unit tests exercise are absent), so a
completed task that satisfies the due window is returned unfiltered, where
the spec's completed filter (criterion `False`) would drop it. -/
theorem get_filtered_tasks_no_completed_filter :
    ("completed" ∉ get_filtered_tasks_fields)
  ∧ get_filtered_tasks c2_env 1 false (some zeroDelta) none none none none
      = .ok [c2_task]
  ∧ c2_task.completed = true
  ∧ filter_tasks_by_completed [c2_task] (some false) = [] :=
  ⟨by decide, rfl, rfl, rfl⟩

/-- C9.  A rule's cached validity is `None` until the first `is_valid()`
call; that call runs the synchronization exactly once and fixes the cache to
its boolean result; every later call returns the cached value without
another synchronization. -/
theorem rule_is_valid_memoized (sync_result : Bool) (n : Nat) (hn : 1 ≤ n) :
    Rule.initState.is_valid = none
  ∧ Rule.is_valid sync_result Rule.initState
      = (sync_result, ⟨some sync_result, 1⟩)
  ∧ Rule.is_valid_iter sync_result n = ⟨some sync_result, 1⟩
  ∧ (Rule.is_valid sync_result (Rule.is_valid_iter sync_result n)).1
      = sync_result := by
  have hiter : ∀ m : Nat, 1 ≤ m →
      Rule.is_valid_iter sync_result m = ⟨some sync_result, 1⟩ := by
    intro m hm
    induction m with
    | zero => omega
    | succ k ih =>
        cases Nat.eq_or_lt_of_le hm with
        | inl h0 =>
            have : k = 0 := by omega
            subst this
            rfl
        | inr hlt =>
            have hk : 1 ≤ k := by omega
            show (Rule.is_valid sync_result (Rule.is_valid_iter sync_result k)).2
              = _
            rw [ih hk]
            rfl
  refine ⟨rfl, rfl, hiter n hn, ?_⟩
  rw [hiter n hn]
  rfl

/-- Witness for C9 at `sync_result = true` after three calls. -/
theorem rule_is_valid_memoized_witness :
    Rule.initState.is_valid = none
  ∧ Rule.is_valid true Rule.initState = (true, ⟨some true, 1⟩)
  ∧ Rule.is_valid_iter true 3 = ⟨some true, 1⟩
  ∧ (Rule.is_valid true (Rule.is_valid_iter true 3)).1 = true :=
  rule_is_valid_memoized true 3 (by decide)

/-- C10.  Whenever a relative window is given (either granularity), a task
whose `due_on` is null never appears in the filtered result — even at
datetime granularity with a non-null `due_at`; the `due_at` preference and
the assumed-time fallback are only reached for tasks with a due date. -/
theorem filter_tasks_by_datetime_skips_null_due_on (tasks : List TaskRec)
    (dt_base : DateTime) (rel : RelDelta) (op : CmpOp)
    (time_due_assumed : Option TimeOfDay) (t : TaskRec)
    (ht : t ∈ filter_tasks_by_datetime tasks dt_base (some rel) op
      time_due_assumed) :
    t.due_on ≠ none := by
  intro hnone
  simp only [filter_tasks_by_datetime] at ht
  split at ht
  · have hmem := (List.mem_filter.mp ht).2
    rw [hnone] at hmem
    simp at hmem
  · have hmem := (List.mem_filter.mp ht).2
    rw [hnone] at hmem
    simp at hmem

/-- A task with a precise `due_at` but a null `due_on`. -/
def c10_task_null_due_on : TaskRec :=
  ⟨7, toString 7, none, some ⟨⟨2021, 1, 1⟩, ⟨22, 0, 0, 0⟩, -300⟩, false⟩

/-- A task due 2021-01-01 at 22:00 UTC-0500. -/
def c10_task_due : TaskRec :=
  ⟨8, toString 8, some ⟨2021, 1, 1⟩, some ⟨⟨2021, 1, 1⟩, ⟨22, 0, 0, 0⟩, -300⟩,
    false⟩

/-- A two-hour window: carries a time component, so the comparison runs at
datetime granularity. -/
def c10_rel_2h : RelDelta :=
  RelDelta.make 0 0 0 0 2 0

/-- Witness for C10: at datetime granularity the null-`due_on` task is not in
the result although its `due_at` is two hours before the threshold, while the
dated task is. -/
theorem filter_tasks_by_datetime_skips_null_due_on_witness :
    c10_task_null_due_on ∉
      filter_tasks_by_datetime [c10_task_null_due_on, c10_task_due]
        base_2021_est (some c10_rel_2h) .le none :=
  fun hmem =>
    filter_tasks_by_datetime_skips_null_due_on
      [c10_task_null_due_on, c10_task_due] base_2021_est c10_rel_2h .le none
      c10_task_null_due_on hmem rfl

/-- The spec's worked example text for the timeframe parser. -/
def tf_example_str : String :=
  "3h-4m+2M"

/-- A duplicated-minutes text (the repository's own dupe test input). -/
def tf_dupe_str : String :=
  "3m 2m"

/-- C5.  For every input text and indicator set, `parse_timeframe` returns 0
on zero matches, the signed integer of the single match on exactly one
match over all indicator variants, and raises the duplicate-timeframe error
on more than one match; on the worked example the hours indicator yields 3,
minutes -4, months 2. -/
theorem parse_timeframe_match_cases (tf_str : String)
    (timeframes : List TFIndicator) :
    (findAllMatches tf_str timeframes = [] →
      parse_timeframe tf_str timeframes = .ok 0)
  ∧ (∀ n : Int, findAllMatches tf_str timeframes = [n] →
      parse_timeframe tf_str timeframes = .ok n)
  ∧ (∀ (n m : Int) (rest : List Int),
      findAllMatches tf_str timeframes = n :: m :: rest →
      parse_timeframe tf_str timeframes = .error .timeframeArgDupe)
  ∧ parse_timeframe tf_example_str tf_hours_ind = .ok 3
  ∧ parse_timeframe tf_example_str tf_minutes_ind = .ok (-4)
  ∧ parse_timeframe tf_example_str tf_months_ind = .ok 2 := by
  refine ⟨?_, ?_, ?_, rfl, rfl, rfl⟩
  · intro h
    simp [parse_timeframe, h]
  · intro n h
    simp [parse_timeframe, h]
  · intro n m rest h
    simp [parse_timeframe, h]

/-- Witness for C5 exercising the zero-match and the duplicate branches on
concrete inputs. -/
theorem parse_timeframe_match_cases_witness :
    parse_timeframe tf_dupe_str tf_hours_ind = .ok 0
  ∧ parse_timeframe tf_dupe_str tf_minutes_ind = .error .timeframeArgDupe :=
  ⟨(parse_timeframe_match_cases tf_dupe_str tf_hours_ind).1 rfl,
   (parse_timeframe_match_cases tf_dupe_str tf_minutes_ind).2.2.1 3 2 [] rfl⟩

/-- The spec's worked example for the timedelta parser. -/
def tdelta_example_str : String :=
  "1m2h3d4w5M6y"

/-- A messier timedelta text (the repository's own test input). -/
def tdelta_messy_str : String :=
  "1 minutes, 2 hour 3 days4weeks-5MonTHs +6Years"

/-- The empty string. -/
def empty_str : String :=
  ""

/-- C6.  `parse_timedelta_arg` returns `None` for `None` and for the empty
string; for any other string it runs the timeframe parser once per unit
(minutes, hours, days, weeks, months, years) and composes the six results
into one `relativedelta`; on the worked example the delta is exactly
minutes=1, hours=2, days=3, weeks=4, months=5, years=6 (the `relativedelta`
constructor folds the weeks into days, as `dateutil` does). -/
theorem parse_timedelta_arg_composes :
    parse_timedelta_arg none = .ok none
  ∧ parse_timedelta_arg (some empty_str) = .ok none
  ∧ (∀ (s : String) (m h d w mo y : Int), s ≠ empty_str →
      parse_timeframe s tf_minutes_ind = .ok m →
      parse_timeframe s tf_hours_ind = .ok h →
      parse_timeframe s tf_days_ind = .ok d →
      parse_timeframe s tf_weeks_ind = .ok w →
      parse_timeframe s tf_months_ind = .ok mo →
      parse_timeframe s tf_years_ind = .ok y →
      parse_timedelta_arg (some s) = .ok (some (RelDelta.make y mo d w h m)))
  ∧ parse_timedelta_arg (some tdelta_example_str)
      = .ok (some (RelDelta.make 6 5 3 4 2 1)) := by
  refine ⟨rfl, rfl, ?_, rfl⟩
  intro s m h d w mo y hne h1 h2 h3 h4 h5 h6
  have hne2 : ¬(s = "") := by simpa [empty_str] using hne
  simp only [parse_timedelta_arg, hne2, if_false, h1, h2, h3, h4, h5, h6]
  rfl

/-- Witness for C6 on the messier worked input (months matched as -5). -/
theorem parse_timedelta_arg_composes_witness :
    parse_timedelta_arg (some tdelta_messy_str)
      = .ok (some (RelDelta.make 6 (-5) 3 4 2 1)) :=
  (parse_timedelta_arg_composes).2.2.1 tdelta_messy_str 1 2 3 4 (-5) 6
    (by decide) rfl rfl rfl rfl rfl rfl

/-- A parameter mapping with BOTH the workspace name and the workspace gid
set (and everything else unambiguous: a project gid and the no-due-date
mode). -/
def c3_both_workspace_params : MoveTasksRuleParams where
  project_name := none
  project_gid := some 1
  is_my_tasks_list := none
  user_task_list_gid := none
  workspace_name := some (toString 2)
  workspace_gid := some 2
  match_no_due_date := true
  min_time_until_due_str := none
  min_time_until_due := none
  max_time_until_due_str := none
  max_time_until_due := none
  min_due_assumed_time := none
  max_due_assumed_time := none
  src_sections_include_names := []
  src_sections_include_gids := []
  src_sections_exclude_names := []
  src_sections_exclude_gids := []
  dst_section_name := none
  dst_section_gid := some 3

/-- Counterexample to C3 as stated: the claim's workspace invariant is
"exactly one of workspace name or workspace id set", but the constructor
only asserts `workspace_name is not None or workspace_gid is not None` — at
least one.  With both set (every other invariant satisfied) construction
succeeds instead of raising. -/
theorem move_tasks_init_both_workspace_accepted :
    MoveTasksRule.init_check c3_both_workspace_params = .ok ()
  ∧ c3_both_workspace_params.workspace_name.isSome = true
  ∧ c3_both_workspace_params.workspace_gid.isSome = true :=
  ⟨rfl, rfl, rfl⟩

/-- C3 (amended).  Construction checks each invariant once: exactly one of
the project reference or user-task-list reference, AT LEAST one of workspace
name or workspace id (both together are accepted — the id then serves as the
expected id for the name lookup during sync), and exactly one of
match-no-due-date or a due-date-window bound; any violating combination
raises a validation failure. -/
theorem move_tasks_init_invariants (p : MoveTasksRuleParams)
    (hviol : Bool.xor (is_project_given p) (is_user_task_list_given p) = false
      ∨ (p.workspace_name.isSome || p.workspace_gid.isSome) = false
      ∨ Bool.xor (is_time_given p) p.match_no_due_date = false) :
    ∃ e, MoveTasksRule.init_check p = .error e := by
  unfold MoveTasksRule.init_check
  rcases hviol with h | h | h <;>
    · repeat' split
      any_goals exact ⟨_, rfl⟩
      simp_all

/-- Parameters violating the exactly-one project/user-task-list invariant
(both a project gid and a user task list gid are given). -/
def c3_both_targets_params : MoveTasksRuleParams :=
  { c3_both_workspace_params with user_task_list_gid := some 4 }

/-- Witness for the amended C3: both target kinds set raises. -/
theorem move_tasks_init_invariants_witness :
    ∃ e, MoveTasksRule.init_check c3_both_targets_params = .error e :=
  move_tasks_init_invariants c3_both_targets_params (Or.inl (by decide))

/-- Appending dry-run log entries never touches the moves trace. -/
theorem foldl_logs_moves_eq (l : List TaskRec) (e : ExecEffects) :
    (l.foldl (fun (e : ExecEffects) task =>
      { e with dry_run_logs := e.dry_run_logs ++ [task.gid] }) e).moves
      = e.moves := by
  induction l generalizing e with
  | nil => rfl
  | cons t ts ih => simpa using ih _

/-- C4.  `MoveTasksRule.execute` performs no mutating API call
(`move_task_to_section` is never invoked) whenever the rule's own
test-report-only flag or the caller's override is set; and unless both
`is_valid()` and `is_criteria_met()` hold it has no effects at all. -/
theorem move_tasks_execute_frame (env : ApiEnv) (p : MoveTasksRuleParams)
    (srcs : List Int) (valid criteria_met test_report_only force : Bool)
    (eff : ExecEffects)
    (hrun : MoveTasksRule.execute env p srcs valid criteria_met
      test_report_only force = .ok eff) :
    ((test_report_only = true ∨ force = true) → eff.moves = [])
  ∧ ((valid = false ∨ criteria_met = false) → eff = ⟨[], []⟩) := by
  unfold MoveTasksRule.execute at hrun
  by_cases hv : (!valid || !criteria_met) = true
  · rw [if_pos hv] at hrun
    have heff : eff = ⟨[], []⟩ := by
      cases hrun
      rfl
    subst heff
    exact ⟨fun _ => rfl, fun _ => rfl⟩
  · rw [if_neg hv] at hrun
    constructor
    · intro hflag
      have hor : (test_report_only || force) = true := by
        rcases hflag with h | h <;> simp [h]
      cases hfetch : srcs.mapM fun src_sect_gid =>
          get_filtered_tasks env src_sect_gid p.match_no_due_date
            p.min_time_until_due p.max_time_until_due
            p.min_due_assumed_time p.max_due_assumed_time none with
      | error e =>
          rw [hfetch] at hrun
          simp [Bind.bind, Except.bind] at hrun
      | ok fetched =>
          rw [hfetch] at hrun
          simp only [Bind.bind, Except.bind, hor, Bool.true_or, Bool.or_true,
            if_true] at hrun
          cases hrun
          exact foldl_logs_moves_eq _ _
    · intro hval
      exfalso
      apply hv
      rcases hval with h | h <;> simp [h]

/-- A due-dateless task sitting in the source section. -/
def c4_task : TaskRec :=
  ⟨11, toString 11, none, none, false⟩

/-- Environment for the execute witness: one section holding the task. -/
def c4_env : ApiEnv :=
  ⟨fun _ => [c4_task], fun _ => [], fun _ _ => 0, base_2021_est⟩

/-- A valid no-due-date rule parameter set for the execute witness. -/
def c4_params : MoveTasksRuleParams :=
  { c3_both_workspace_params with dst_section_gid := some 9 }

/-- Witness for C4: a valid test-report-only run finds the task, logs it and
performs no move. -/
theorem move_tasks_execute_frame_witness :
    MoveTasksRule.execute c4_env c4_params [5] true true true false
      = .ok ⟨[], [11]⟩
  ∧ (⟨[], [11]⟩ : ExecEffects).moves = [] :=
  ⟨rfl,
   (move_tasks_execute_frame c4_env c4_params [5] true true true false
      ⟨[], [11]⟩ rfl).1 (Or.inl rfl)⟩

/-- A section name for the resolution examples. -/
def name_a : String :=
  "a"

/-- Environment for the section-resolution examples: the container's
authoritative section set is {1}, and every name lookup resolves to 1. -/
def envA : ApiEnv :=
  ⟨fun _ => [], fun _ => [1], fun _ _ => 1, base_2021_est⟩

/-- C7.  Section resolution raises the missing-data error when an included
id (explicit or name-resolved) is absent from the authoritative set; an
absent excluded id only triggers the non-fatal warning; an id both included
and excluded raises the data-conflict error — in particular including and
excluding the same name does. -/
theorem net_include_section_errors (env : ApiEnv) (c : Int)
    (inN : List String) (inG : List Int) (exN : List String) (exG : List Int)
    (dflt : Bool) :
    ((include_gids_total env c inN inG \ authoritative_section_gids env c).Nonempty →
      get_net_include_section_gids env c inN inG exN exG dflt
        = .error .dataMissing)
  ∧ (include_gids_total env c inN inG ⊆ authoritative_section_gids env c →
      include_gids_total env c inN inG ∩ exclude_gids_total env c exN exG = ∅ →
      (exclude_gids_total env c exN exG \ authoritative_section_gids env c).Nonempty →
      ∃ gs, get_net_include_section_gids env c inN inG exN exG dflt
        = .ok ⟨true, gs⟩)
  ∧ (include_gids_total env c inN inG ⊆ authoritative_section_gids env c →
      (include_gids_total env c inN inG ∩ exclude_gids_total env c exN exG).Nonempty →
      get_net_include_section_gids env c inN inG exN exG dflt
        = .error .dataConflict)
  ∧ get_net_include_section_gids envA 10 [name_a] [] [name_a] [] true
      = .error .dataConflict := by
  have hmiss : ∀ {s t : Finset Int}, s ⊆ t → ¬(s \ t).Nonempty := by
    intro s t hsub
    rw [Finset.sdiff_eq_empty_iff_subset.mpr hsub]
    simp
  refine ⟨?_, ?_, ?_, rfl⟩
  · intro h
    simp only [get_net_include_section_gids]
    rw [if_pos h]
  · intro hsub hdisj hexc
    simp only [get_net_include_section_gids]
    rw [if_neg (hmiss hsub), decide_eq_true hexc,
      if_neg (by rw [hdisj]; simp)]
    split
    · exact ⟨_, rfl⟩
    · exact ⟨_, rfl⟩
  · intro hsub hconf
    simp only [get_net_include_section_gids]
    rw [if_neg (hmiss hsub), if_pos hconf]

/-- Witness for C7: an explicitly included gid (99) absent from the
authoritative set {1} raises the missing-data error. -/
theorem net_include_section_errors_witness :
    get_net_include_section_gids envA 10 [] [99] [] [] true
      = .error .dataMissing :=
  (net_include_section_errors envA 10 [] [99] [] [] true).1 (by decide)

/-- C8.  When section resolution does not raise: an explicit include (id or
name) makes the result exactly the combined include set; otherwise the
result is the authoritative set minus the combined excludes when
`default_to_include` (the full authoritative set with no excludes), and the
empty include set when not `default_to_include`. -/
theorem net_include_section_resolution (env : ApiEnv) (c : Int)
    (inN : List String) (inG : List Int) (exN : List String) (exG : List Int)
    (dflt : Bool)
    (hsub : include_gids_total env c inN inG ⊆ authoritative_section_gids env c)
    (hdisj : include_gids_total env c inN inG
      ∩ exclude_gids_total env c exN exG = ∅) :
    ((include_gids_total env c inN inG).Nonempty →
      get_net_include_section_gids env c inN inG exN exG dflt
        = .ok ⟨decide ((exclude_gids_total env c exN exG
            \ authoritative_section_gids env c).Nonempty),
          include_gids_total env c inN inG⟩)
  ∧ (include_gids_total env c inN inG = ∅ → dflt = true →
      get_net_include_section_gids env c inN inG exN exG dflt
        = .ok ⟨decide ((exclude_gids_total env c exN exG
            \ authoritative_section_gids env c).Nonempty),
          authoritative_section_gids env c
            \ exclude_gids_total env c exN exG⟩)
  ∧ (include_gids_total env c inN inG = ∅ → dflt = false →
      get_net_include_section_gids env c inN inG exN exG dflt
        = .ok ⟨decide ((exclude_gids_total env c exN exG
            \ authoritative_section_gids env c).Nonempty), ∅⟩)
  ∧ get_net_include_section_gids envA 10 [] [] [] [] true
      = .ok ⟨false, {1}⟩ := by
  have hmiss : ∀ {s t : Finset Int}, s ⊆ t → ¬(s \ t).Nonempty := by
    intro s t hsub2
    rw [Finset.sdiff_eq_empty_iff_subset.mpr hsub2]
    simp
  have hnoconf : ¬(include_gids_total env c inN inG
      ∩ exclude_gids_total env c exN exG).Nonempty := by
    rw [hdisj]
    simp
  refine ⟨?_, ?_, ?_, by rfl⟩
  · intro hne
    simp only [get_net_include_section_gids]
    rw [if_neg (hmiss hsub), if_neg hnoconf]
    cases dflt
    · simp
    · simp [hne]
  · intro hempty hdflt
    subst hdflt
    simp only [get_net_include_section_gids]
    rw [if_neg (hmiss hsub), if_neg hnoconf, hempty]
    simp
  · intro hempty hdflt
    subst hdflt
    simp only [get_net_include_section_gids]
    rw [if_neg (hmiss hsub), if_neg hnoconf, hempty]
    simp

/-- Witness for C8: no includes, exclude gid 2 absent from the authoritative
set {1}, defaulting to include — the warning fires and the result is the
authoritative set minus the excludes. -/
theorem net_include_section_resolution_witness :
    get_net_include_section_gids envA 10 [] [] [] [2] true
      = .ok ⟨decide ((exclude_gids_total envA 10 [] [2]
          \ authoritative_section_gids envA 10).Nonempty),
        authoritative_section_gids envA 10 \ exclude_gids_total envA 10 [] [2]⟩ :=
  (net_include_section_resolution envA 10 [] [] [] [2] true (by decide)
    (by decide)).2.1 (by decide) rfl
